import Mathlib


/-!
Verification of the real-time behavioral signal pipeline: a shallow
embedding in Lean 4 of the signal smoother and the four analyzers
(posture, stress, gesture, gaze integrity) from the source, with theorems
settling the frozen claims about them.

Conventions of the embedding:
* Python floats are modelled as exact numbers: `ℚ` wherever the source
  only adds, multiplies, divides and compares, `ℝ` where it takes square
  roots or uses π.
* Wherever the source compares a Euclidean distance `math.sqrt(dx²+dy²)`
  (or `math.hypot`) against another distance or against a positive
  constant threshold, the embedding compares the squared distance against
  the squared threshold; `Real.sqrt` is strictly monotone on nonnegative
  inputs, so the comparisons agree.
* Mutable analyzer objects become explicit state records; each method
  returns its value together with the updated state.  `time.time()`
  becomes an explicit `now` parameter.
* Python `deque(maxlen=m)` becomes a `List` with `pushBounded m`.
-/

/-- Single landmark point with normalized coordinates
(`Landmark` dataclass of the source modules). -/
structure Landmark where
  x : ℚ
  y : ℚ
  z : ℚ
  visibility : ℚ
deriving DecidableEq, Repr

def dummyLandmark : Landmark := ⟨0, 0, 0, 0⟩

/-- `deque(maxlen := m).append x`: append and drop from the front when over
capacity. -/
def pushBounded (m : ℕ) (xs : List α) (x : α) : List α :=
  let ys := xs ++ [x]
  if m < ys.length then ys.drop (ys.length - m) else ys

/-- Squared planar distance between two landmarks (the source computes
`math.hypot`/`math.sqrt` of this quantity; only comparisons are made). -/
def dist2 (a b : Landmark) : ℚ := (a.x - b.x) ^ 2 + (a.y - b.y) ^ 2

/-! ## Signal Smoother (`signal_smoother.py`, class OneEuroFilter) -/

/-- Constructor arguments of `OneEuroFilter.__init__`. -/
structure OneEuroParams where
  freq : ℝ
  minCutoff : ℝ
  beta : ℝ
  dCutoff : ℝ

/-- Internal state of one `OneEuroFilter`: previous filtered value,
previous derivative estimate, previous timestamp (all `None` before the
first call). -/
structure OneEuroState where
  xPrev : Option ℝ
  dxPrev : Option ℝ
  tPrev : Option ℝ

/-- `OneEuroFilter._smoothing_factor`. -/
noncomputable def smoothingFactor (tE cutoff : ℝ) : ℝ :=
  let r := 2 * Real.pi * cutoff * tE
  r / (r + 1)

/-- `OneEuroFilter.__call__ x t` (with the timestamp `t` always supplied by
the caller, as the smoother does): returns the filtered value and the new
state.  In the source `dx_prev`/`t_prev` are always set when `x_prev` is;
`getD 0` renders the same field reads totally. -/
noncomputable def oneEuroCall (p : OneEuroParams) (s : OneEuroState) (x t : ℝ) :
    ℝ × OneEuroState :=
  match s.xPrev with
  | none => (x, ⟨some x, some 0, some t⟩)
  | some xp =>
    let dxp := s.dxPrev.getD 0
    let tp := s.tPrev.getD 0
    let tE := t - tp
    if tE ≤ 0 then (xp, s)
    else
      let dx := (x - xp) / tE
      let alphaD := smoothingFactor tE p.dCutoff
      let dxHat := alphaD * dx + (1 - alphaD) * dxp
      let cutoff := p.minCutoff + p.beta * |dxHat|
      let alpha := smoothingFactor tE cutoff
      let xHat := alpha * x + (1 - alpha) * xp
      (xHat, ⟨some xHat, some dxHat, some t⟩)

/-! ## Gesture Analyzer frequency and classification
(`gesture_analyzer.py`, `_calculate_gesture_frequency`,
`_classify_activity_level`) -/

/-- Constructor arguments of `GestureAnalyzer.__init__`. -/
structure GestureParams where
  faceTouchThreshold : ℚ
  gestureHeightThreshold : ℚ
  gestureVelocityThreshold : ℚ
  historySize : ℕ
deriving DecidableEq

/-- The `GestureAnalyzer` defaults. -/
def defaultGestureParams : GestureParams := ⟨1/10, 1/10, 1/50, 30⟩

/-- Mutable state of `GestureAnalyzer`. -/
structure GestureState where
  sessionStartTime : ℚ
  totalFaceTouches : ℕ
  totalGestures : ℕ
  leftHandHistory : List (ℚ × ℚ × ℚ)
  rightHandHistory : List (ℚ × ℚ × ℚ)
  gestureTimestamps : List ℚ
  faceTouchTimestamps : List ℚ
deriving DecidableEq

/-- A fresh `GestureAnalyzer` started at time `t0`. -/
def initGestureState (t0 : ℚ) : GestureState := ⟨t0, 0, 0, [], [], [], []⟩

/-- `GestureAnalyzer._calculate_gesture_frequency` (gestures per minute),
with `time.time()` passed as `now`. -/
def calculateGestureFrequency (s : GestureState) (now : ℚ) : ℚ :=
  let sessionDurationMinutes := (now - s.sessionStartTime) / 60
  if sessionDurationMinutes < 1/10 then 0
  else (s.totalGestures : ℚ) / sessionDurationMinutes

/-- `GestureAnalyzer._classify_activity_level`. -/
def classifyActivityLevel (gestureFrequency : ℚ) : String :=
  if gestureFrequency < 5 then "passive"
  else if gestureFrequency < 15 then "moderate"
  else "dynamic"

/-! ## Integrity score (`integrity_checker.py`,
`IntegrityChecker._calculate_integrity_score`) -/

/-- `IntegrityChecker._calculate_integrity_score`, as a function of the
three state fields it reads: the cumulative speech-onset counter, the
cumulative cheat-flag counter, and the cluster-frequency dictionary
(modelled as an association list id ↦ visit count). -/
def calculateIntegrityScore (totalSpeechOnsets cheatFlagCount : ℕ)
    (clusterFrequencies : List (ℕ × ℕ)) : ℚ :=
  if totalSpeechOnsets = 0 then 1
  else
    let flagPenalty := min (9/10) ((cheatFlagCount : ℚ) * (3/20))
    let score := 1 - flagPenalty
    let score :=
      if clusterFrequencies = [] then score
      else
        let maxClusterFrequency := (clusterFrequencies.map (·.2)).foldl max 0
        let concentration := (maxClusterFrequency : ℚ) / (totalSpeechOnsets : ℚ)
        if 1/2 < concentration then score - (concentration - 1/2) * (2/5)
        else score
    max 0 (min 1 score)

/-! ## Posture Analyzer (`posture_analyzer.py`) -/

/-- Constructor arguments of `PostureAnalyzer.__init__`. -/
structure PostureParams where
  shoulderAngleThreshold : ℚ
  slouchThreshold : ℚ
  rockThreshold : ℚ
  historySize : ℕ
  armsCrossedFrames : ℕ
deriving DecidableEq

/-- The `PostureAnalyzer` defaults. -/
def defaultPostureParams : PostureParams := ⟨15, 1/20, 1/50, 30, 10⟩

/-- Mutable state of `PostureAnalyzer`: shoulder-midpoint x history
(maxlen `historySize`), one-shot slouch baseline, arms-crossed boolean
history (maxlen `armsCrossedFrames`). -/
structure PostureState where
  shoulderHistory : List ℚ
  baselineNoseShoulderDist : Option ℚ
  armsCrossedHistory : List Bool
deriving DecidableEq

/-- A fresh `PostureAnalyzer`. -/
def initPostureState : PostureState := ⟨[], none, []⟩

/-- Python `math.atan2 y x` (radians in (-π, π]; 0 at the origin). -/
noncomputable def atan2 (y x : ℝ) : ℝ :=
  if 0 < x then Real.arctan (y / x)
  else if x < 0 then
    (if 0 ≤ y then Real.arctan (y / x) + Real.pi else Real.arctan (y / x) - Real.pi)
  else if 0 < y then Real.pi / 2
  else if y < 0 then -(Real.pi / 2)
  else 0

/-- `PostureAnalyzer._calculate_shoulder_angle`: angle of the shoulder line
from horizontal in degrees, folded into [-90°, 90°]. -/
noncomputable def calculateShoulderAngle (ls rs : Landmark) : ℝ :=
  let dx : ℝ := ((rs.x - ls.x : ℚ) : ℝ)
  let dy : ℝ := ((rs.y - ls.y : ℚ) : ℝ)
  let angleDeg := atan2 dy dx * (180 / Real.pi)
  if angleDeg > 90 then 180 - angleDeg
  else if angleDeg < -90 then -180 - angleDeg
  else angleDeg

/-- `PostureAnalyzer._detect_slouch`, acting on the only state field it
touches (the one-shot baseline).  The 15 % slouch threshold is a literal
inside the method (the constructor's `slouch_threshold` is not read
there). -/
def detectSlouch (nose ls rs : Landmark) (baseline : Option ℚ) :
    (Bool × ℚ) × Option ℚ :=
  let shoulderWidth := |rs.x - ls.x|
  if shoulderWidth < 1/100 then ((false, 0), baseline)
  else
    let shoulderAvgY := (ls.y + rs.y) / 2
    let verticalDist := shoulderAvgY - nose.y
    let normalizedDist := verticalDist / shoulderWidth
    match baseline with
    | none => ((false, 0), some normalizedDist)
    | some base =>
      let deviation := base - normalizedDist
      if deviation ≤ 0 then ((false, 0), some base)
      else
        let slouchScore := min 1 (deviation / (3/20))
        ((1/2 < slouchScore, slouchScore), some base)

/-- The instantaneous arms-crossed boolean of one frame of
`PostureAnalyzer._detect_arms_crossed`: the visibility gate (all four of
wrist/shoulder visibilities above 0.5) conjoined with the geometric test
(each wrist nearer the opposite shoulder than its own, both wrists within
0.25 of the shoulder midpoint, both wrists above the hip line).  Distance
comparisons are squared (0.25² = 1/16). -/
def armsCrossedInstant (lw rw ls rs lh rh : Landmark) : Bool :=
  if lw.visibility < 1/2 ∨ rw.visibility < 1/2 ∨
      ls.visibility < 1/2 ∨ rs.visibility < 1/2 then false
  else
    let shoulderCx := (ls.x + rs.x) / 2
    let shoulderCy := (ls.y + rs.y) / 2
    let hipY := (lh.y + rh.y) / 2
    let lwCenter2 := (lw.x - shoulderCx) ^ 2 + (lw.y - shoulderCy) ^ 2
    let rwCenter2 := (rw.x - shoulderCx) ^ 2 + (rw.y - shoulderCy) ^ 2
    decide (dist2 lw rs < dist2 lw ls ∧ dist2 rw ls < dist2 rw rs ∧
      (lwCenter2 < 1/16 ∧ rwCenter2 < 1/16) ∧ (lw.y < hipY ∧ rw.y < hipY))

/-- `PostureAnalyzer._detect_arms_crossed`, acting on the only state field
it touches (the boolean history).  The elbow arguments are accepted and
unused exactly as in the source. -/
def detectArmsCrossed (p : PostureParams) (lw rw le re ls rs lh rh : Landmark)
    (hist : List Bool) : Bool × List Bool :=
  if lw.visibility < 1/2 ∨ rw.visibility < 1/2 ∨
      ls.visibility < 1/2 ∨ rs.visibility < 1/2 then
    (false, pushBounded p.armsCrossedFrames hist false)
  else
    let crossed := armsCrossedInstant lw rw ls rs lh rh
    let hist' := pushBounded p.armsCrossedFrames hist crossed
    if hist'.length < p.armsCrossedFrames then (false, hist')
    else (decide ((p.armsCrossedFrames : ℚ) * (7/10) ≤ (hist'.count true : ℚ)),
      hist')

/-- `PostureAnalyzer._detect_rocking`, acting on the only state field it
touches (the shoulder-midpoint x history).  The rocking score takes a real
square root of the population variance. -/
noncomputable def detectRocking (p : PostureParams) (ls rs : Landmark)
    (hist : List ℚ) : (ℝ × ℝ) × List ℚ :=
  let shoulderMidX := (ls.x + rs.x) / 2
  let hist' := pushBounded p.historySize hist shoulderMidX
  if hist'.length < 10 then ((0, 1), hist')
  else
    let n : ℚ := hist'.length
    let meanX := hist'.sum / n
    let variance := (hist'.map (fun x => (x - meanX) ^ 2)).sum / n
    let stdDev : ℝ := Real.sqrt ((variance : ℚ) : ℝ)
    let rockingScore := min 1 (stdDev / ((p.rockThreshold : ℚ) : ℝ))
    ((rockingScore, max 0 (1 - rockingScore)), hist')

/-- `PostureMetrics` dataclass. -/
structure PostureMetrics where
  shoulder_angle : ℝ
  is_leaning : Bool
  is_slouching : Bool
  slouch_score : ℚ
  arms_crossed : Bool
  rocking_score : ℝ
  shoulder_stability : ℝ
  timestamp : ℚ

/-- The neutral/default record `PostureAnalyzer.analyze` returns when the
pose is missing or too short. -/
def defaultPostureMetrics (t : ℚ) : PostureMetrics :=
  ⟨0, false, false, 0, false, 0, 1, t⟩

/-- `PostureAnalyzer.analyze`: landmark extraction by MediaPipe index
(0 nose, 11/12 shoulders, 13/14 elbows, 15/16 wrists, 23/24 hips), then the
four detectors in source order. -/
noncomputable def PostureAnalyzer.analyze (p : PostureParams) (s : PostureState)
    (pose : Option (List Landmark)) (timestamp : ℚ) :
    PostureMetrics × PostureState :=
  match pose with
  | none => (defaultPostureMetrics timestamp, s)
  | some lms =>
    if lms.length < 25 then (defaultPostureMetrics timestamp, s)
    else
      let nose := lms.getD 0 dummyLandmark
      let ls := lms.getD 11 dummyLandmark
      let rs := lms.getD 12 dummyLandmark
      let le := lms.getD 13 dummyLandmark
      let re := lms.getD 14 dummyLandmark
      let lw := lms.getD 15 dummyLandmark
      let rw := lms.getD 16 dummyLandmark
      let lh := lms.getD 23 dummyLandmark
      let rh := lms.getD 24 dummyLandmark
      let shoulderAngle := calculateShoulderAngle ls rs
      let isLeaning := (p.shoulderAngleThreshold : ℝ) < |shoulderAngle|
      let slouch := detectSlouch nose ls rs s.baselineNoseShoulderDist
      let arms := detectArmsCrossed p lw rw le re ls rs lh rh s.armsCrossedHistory
      let rocking := detectRocking p ls rs s.shoulderHistory
      (⟨shoulderAngle, isLeaning, slouch.1.1, slouch.1.2, arms.1,
          rocking.1.1, rocking.1.2, timestamp⟩,
        ⟨rocking.2, slouch.2, arms.2⟩)

/-- The state evolution of `PostureAnalyzer.analyze` alone (identical
updates, metrics dropped); computable, for evaluating call sequences. -/
def postureStateStep (p : PostureParams) (s : PostureState)
    (pose : Option (List Landmark)) : PostureState :=
  match pose with
  | none => s
  | some lms =>
    if lms.length < 25 then s
    else
      let nose := lms.getD 0 dummyLandmark
      let ls := lms.getD 11 dummyLandmark
      let rs := lms.getD 12 dummyLandmark
      let le := lms.getD 13 dummyLandmark
      let re := lms.getD 14 dummyLandmark
      let lw := lms.getD 15 dummyLandmark
      let rw := lms.getD 16 dummyLandmark
      let lh := lms.getD 23 dummyLandmark
      let rh := lms.getD 24 dummyLandmark
      ⟨pushBounded p.historySize s.shoulderHistory ((ls.x + rs.x) / 2),
        (detectSlouch nose ls rs s.baselineNoseShoulderDist).2,
        (detectArmsCrossed p lw rw le re ls rs lh rh s.armsCrossedHistory).2⟩

/-- Repeated calls of `PostureAnalyzer.analyze`, keeping the state. -/
noncomputable def postureStates (p : PostureParams) (s : PostureState) :
    List (Option (List Landmark) × ℚ) → PostureState
  | [] => s
  | f :: fs => postureStates p (PostureAnalyzer.analyze p s f.1 f.2).2 fs

/-- The visibility gate of `_detect_arms_crossed`: all four of wrist and
shoulder visibilities above 0.5. -/
def armsVisible (lw rw ls rs : Landmark) : Prop :=
  ¬(lw.visibility < 1/2 ∨ rw.visibility < 1/2 ∨
    ls.visibility < 1/2 ∨ rs.visibility < 1/2)

instance (lw rw ls rs : Landmark) : Decidable (armsVisible lw rw ls rs) := by
  unfold armsVisible
  infer_instance

/-! ## Posture helper lemmas -/

theorem detectArmsCrossed_snd (p : PostureParams)
    (lw rw le re ls rs lh rh : Landmark) (hist : List Bool) :
    (detectArmsCrossed p lw rw le re ls rs lh rh hist).2 =
      pushBounded p.armsCrossedFrames hist (armsCrossedInstant lw rw ls rs lh rh) := by
  unfold detectArmsCrossed armsCrossedInstant
  by_cases h : lw.visibility < 1/2 ∨ rw.visibility < 1/2 ∨
      ls.visibility < 1/2 ∨ rs.visibility < 1/2
  · simp only [h, if_true]
  · simp only [h, if_false]
    split <;> rfl

theorem detectArmsCrossed_fst (p : PostureParams)
    (lw rw le re ls rs lh rh : Landmark) (hist : List Bool) :
    ((detectArmsCrossed p lw rw le re ls rs lh rh hist).1 = true ↔
      armsVisible lw rw ls rs ∧
      p.armsCrossedFrames ≤
        (pushBounded p.armsCrossedFrames hist
          (armsCrossedInstant lw rw ls rs lh rh)).length ∧
      (p.armsCrossedFrames : ℚ) * (7/10) ≤
        ((pushBounded p.armsCrossedFrames hist
          (armsCrossedInstant lw rw ls rs lh rh)).count true : ℚ)) := by
  unfold detectArmsCrossed armsVisible
  by_cases h : lw.visibility < 1/2 ∨ rw.visibility < 1/2 ∨
      ls.visibility < 1/2 ∨ rs.visibility < 1/2
  · simp only [h, if_true, not_true]
    simp [armsCrossedInstant, h]
  · simp only [h, if_false, not_false_iff]
    have hinst : armsCrossedInstant lw rw ls rs lh rh =
        (if h : _ then false else _) := rfl
    by_cases hlen : (pushBounded p.armsCrossedFrames hist
        (armsCrossedInstant lw rw ls rs lh rh)).length < p.armsCrossedFrames
    · simp only [hlen, if_true]
      simp [Nat.lt_iff_add_one_le] at hlen ⊢
      omega
    · simp only [hlen, if_false]
      push_neg at hlen
      simp [hlen, decide_eq_true_iff]

theorem analyze_state_eq (p : PostureParams) (s : PostureState)
    (pose : Option (List Landmark)) (t : ℚ) :
    (PostureAnalyzer.analyze p s pose t).2 = postureStateStep p s pose := by
  match pose with
  | none => rfl
  | some lms =>
    by_cases h : lms.length < 25
    · simp [PostureAnalyzer.analyze, postureStateStep, h]
    · simp only [PostureAnalyzer.analyze, postureStateStep, h, if_false]
      have : (detectRocking p (lms.getD 11 dummyLandmark) (lms.getD 12 dummyLandmark)
          s.shoulderHistory).2 =
          pushBounded p.historySize s.shoulderHistory
            (((lms.getD 11 dummyLandmark).x + (lms.getD 12 dummyLandmark).x) / 2) := by
        unfold detectRocking
        dsimp only
        split <;> rfl
      rw [this]

theorem analyze_arms_eq (p : PostureParams) (s : PostureState)
    (lms : List Landmark) (t : ℚ) (h : ¬lms.length < 25) :
    (PostureAnalyzer.analyze p s (some lms) t).1.arms_crossed =
      (detectArmsCrossed p (lms.getD 15 dummyLandmark) (lms.getD 16 dummyLandmark)
        (lms.getD 13 dummyLandmark) (lms.getD 14 dummyLandmark)
        (lms.getD 11 dummyLandmark) (lms.getD 12 dummyLandmark)
        (lms.getD 23 dummyLandmark) (lms.getD 24 dummyLandmark)
        s.armsCrossedHistory).1 := by
  simp [PostureAnalyzer.analyze, h]

theorem postureStates_eq (p : PostureParams) (s : PostureState)
    (fs : List (Option (List Landmark) × ℚ)) :
    postureStates p s fs = fs.foldl (fun s f => postureStateStep p s f.1) s := by
  induction fs generalizing s with
  | nil => rfl
  | cons f fs ih =>
    rw [postureStates, analyze_state_eq, ih, List.foldl_cons]

/-! ## Stress Analyzer (`stress_analyzer.py`) -/

/-- Constructor arguments of `StressAnalyzer.__init__`.
(`lipCompression` is the source's `lip_compression_ratio`.) -/
structure StressParams where
  earThreshold : ℚ
  blinkRateThreshold : ℚ
  lipCompression : ℚ
  lipPurseDurationThreshold : ℚ
deriving DecidableEq

/-- The `StressAnalyzer` defaults. -/
def defaultStressParams : StressParams := ⟨1/5, 30, 7/10, 2⟩

/-- Mutable state of `StressAnalyzer`.  `eyeOpen` models the source's
`eye_state` string: true ↔ "open". -/
structure StressState where
  blinkCount : ℕ
  sessionStartTime : ℚ
  eyeOpen : Bool
  blinkHistory : List ℚ
  baselineEar : Option ℚ
  earCalibrationFrames : ℕ
  earCalibrationSum : ℚ
  faceSizeHistory : List ℚ
  lipPurseStartTime : Option ℚ
  lipPurseDuration : ℚ
  lipDistanceHistory : List ℚ
  baselineLipDistance : Option ℚ
  lipCalibrationFrames : ℕ
  lipCalibrationSum : ℚ
  frameCount : ℕ
deriving DecidableEq

/-- A fresh `StressAnalyzer` started at time `t0`. -/
def initStressState (t0 : ℚ) : StressState :=
  ⟨0, t0, true, [], none, 0, 0, [], none, 0, [], none, 0, 0, 0⟩

/-- `StressAnalyzer._get_adaptive_ear_threshold`: scales the EAR threshold
by the average recent face size in five distance bands.  (The `face_size`
argument is accepted and unused, exactly as in the source, which reads the
history instead.) -/
def getAdaptiveEarThreshold (p : StressParams) (s : StressState)
    (faceSize : ℚ) : ℚ :=
  if s.faceSizeHistory.length < 5 then p.earThreshold
  else
    let avgFaceSize := s.faceSizeHistory.sum / (s.faceSizeHistory.length : ℚ)
    if avgFaceSize < 3/20 then p.earThreshold * (7/5)
    else if avgFaceSize < 1/4 then p.earThreshold * (6/5)
    else if 2/5 < avgFaceSize then p.earThreshold * (4/5)
    else if 3/10 < avgFaceSize then p.earThreshold * (9/10)
    else p.earThreshold

/-- The effective blink threshold of `_detect_blink_adaptive` once past
calibration: `min(adaptive, 0.6 * baseline)` when a baseline exists. -/
def blinkFinalThreshold (p : StressParams) (s : StressState) (faceSize : ℚ) : ℚ :=
  match s.baselineEar with
  | some b => min (getAdaptiveEarThreshold p s faceSize) (b * (3/5))
  | none => getAdaptiveEarThreshold p s faceSize

/-- `StressAnalyzer._detect_blink_adaptive` (with `time.time()` passed as
`now`): calibration for the first 60 frames, then the open/closed
two-state machine. -/
def detectBlinkAdaptive (p : StressParams) (s : StressState)
    (averageEar faceSize now : ℚ) : Bool × StressState :=
  if s.baselineEar = none ∧ s.earCalibrationFrames < 60 then
    let frames' : ℕ := s.earCalibrationFrames + 1
    let sum' : ℚ := s.earCalibrationSum + averageEar
    let baseline' : Option ℚ :=
      if 60 ≤ frames' then some (sum' / (frames' : ℚ)) else none
    (false, { s with
      earCalibrationFrames := frames'
      earCalibrationSum := sum'
      baselineEar := baseline' })
  else
    let finalThreshold := blinkFinalThreshold p s faceSize
    if averageEar < finalThreshold then
      if s.eyeOpen then
        (true, { s with
          blinkCount := s.blinkCount + 1
          blinkHistory := pushBounded 300 s.blinkHistory now
          eyeOpen := false })
      else (false, s)
    else (false, { s with eyeOpen := true })

/-- The history-append effect of `StressAnalyzer._calculate_face_size` for
a frame whose computed face size is `faceSize` (the geometric width/height
computation over the 468 face points yields that value). -/
def pushFaceSize (s : StressState) (faceSize : ℚ) : StressState :=
  { s with faceSizeHistory := pushBounded 30 s.faceSizeHistory faceSize }

/-- One blink-relevant frame of `StressAnalyzer.analyze`: face size is
computed (appending to the history) and then `_detect_blink_adaptive`
runs, in source order. -/
def blinkStep (p : StressParams) (s : StressState) (averageEar faceSize now : ℚ) :
    Bool × StressState :=
  detectBlinkAdaptive p (pushFaceSize s faceSize) averageEar faceSize now

/-- A sequence of blink-relevant frames `(averageEar, faceSize, now)`;
returns the last frame's `blink_detected` with the final state. -/
def runBlink (p : StressParams) (s : StressState) (frames : List (ℚ × ℚ × ℚ)) :
    Bool × StressState :=
  frames.foldl (fun acc f => blinkStep p acc.2 f.1 f.2.1 f.2.2) (false, s)

/-- The compression threshold of `_detect_lip_pursing`: the conservative
default 0.015 before a baseline exists, otherwise
`baseline * lip_compression_ratio`. -/
def lipCompressionThreshold (p : StressParams) (s : StressState) : ℚ :=
  match s.baselineLipDistance with
  | none => 3/200
  | some b => b * p.lipCompression

/-- `StressAnalyzer._detect_lip_pursing` (with `time.time()` passed as
`now`): returns `(lip_pursing, purse_duration)` and the new state. -/
def detectLipPursing (p : StressParams) (s : StressState)
    (lipDistance : ℚ) (isSpeaking : Bool) (now : ℚ) : (Bool × ℚ) × StressState :=
  let s := { s with lipDistanceHistory := pushBounded 90 s.lipDistanceHistory lipDistance }
  if isSpeaking then
    ((false, 0), { s with lipPurseStartTime := none, lipPurseDuration := 0 })
  else if s.baselineLipDistance = none ∧ s.lipCalibrationFrames < 60 then
    let frames' : ℕ := s.lipCalibrationFrames + 1
    let sum' : ℚ := s.lipCalibrationSum + lipDistance
    let baseline' : Option ℚ :=
      if 60 ≤ frames' then some (sum' / (frames' : ℚ)) else none
    ((false, 0), { s with
      lipCalibrationFrames := frames'
      lipCalibrationSum := sum'
      baselineLipDistance := baseline' })
  else
    let compressionThreshold := lipCompressionThreshold p s
    let s' :=
      if lipDistance < compressionThreshold then
        match s.lipPurseStartTime with
        | none => { s with lipPurseStartTime := some now }
        | some st => { s with lipPurseDuration := now - st }
      else { s with lipPurseStartTime := none, lipPurseDuration := 0 }
    ((p.lipPurseDurationThreshold ≤ s'.lipPurseDuration, s'.lipPurseDuration), s')

/-- A sequence of lip frames `(lipDistance, isSpeaking, now)`; returns the
last frame's `(lip_pursing, duration)` with the final state. -/
def runLip (p : StressParams) (s : StressState) (frames : List (ℚ × Bool × ℚ)) :
    (Bool × ℚ) × StressState :=
  frames.foldl (fun acc f => detectLipPursing p acc.2 f.1 f.2.1 f.2.2) ((false, 0), s)

/-! ## Gesture Analyzer hand processing (`gesture_analyzer.py`) -/

/-- The summed frame-to-frame displacement of `_count_active_gestures`:
`math.sqrt((curr_x-prev_x)**2 + (curr_y-prev_y)**2)` summed over
consecutive positions of the window. -/
noncomputable def totalMovement : List (ℚ × ℚ × ℚ) → ℝ
  | a :: b :: rest =>
    Real.sqrt (((b.1 - a.1 : ℚ) : ℝ) ^ 2 + ((b.2.1 - a.2.1 : ℚ) : ℝ) ^ 2) +
      totalMovement (b :: rest)
  | _ => 0

/-- The per-hand block of `GestureAnalyzer._count_active_gestures` (the
source duplicates it verbatim for the left and the right hand): given the
hand's landmarks, the shoulder height, the hand's position history and the
shared gesture-timestamp deque, returns (gestures counted this frame,
hand above shoulders) with the updated history and timestamps. -/
noncomputable def handGesture (p : GestureParams) (hand : Option (List Landmark))
    (shoulderY now : ℚ) (hist : List (ℚ × ℚ × ℚ)) (ts : List ℚ) :
    (ℕ × Bool) × List (ℚ × ℚ × ℚ) × List ℚ :=
  match hand with
  | none => ((0, false), hist, ts)
  | some lms =>
    if 0 < lms.length ∧ 1/2 < (lms.getD 0 dummyLandmark).visibility then
      let wrist := lms.getD 0 dummyLandmark
      if wrist.y < shoulderY - p.gestureHeightThreshold then
        let hist' := pushBounded p.historySize hist (wrist.x, wrist.y, now)
        if 3 ≤ hist'.length then
          let recent := hist'.drop (hist'.length - 3)
          if (p.gestureVelocityThreshold : ℝ) < totalMovement recent then
            ((1, true), hist', pushBounded 100 ts now)
          else ((0, true), hist', ts)
        else ((0, true), hist', ts)
      else ((0, false), hist, ts)
    else ((0, false), hist, ts)

/-- `GestureAnalyzer._count_active_gestures`: left hand then right hand,
then the cumulative gesture counter is advanced by the frame's gestures.
Returns `(active_gesture_count, left_above, right_above)` and the new
state. -/
noncomputable def countActiveGestures (p : GestureParams) (s : GestureState)
    (left right : Option (List Landmark)) (shoulderY now : ℚ) :
    (ℕ × Bool × Bool) × GestureState :=
  let lRes := handGesture p left shoulderY now s.leftHandHistory s.gestureTimestamps
  let rRes := handGesture p right shoulderY now s.rightHandHistory lRes.2.2
  let active := lRes.1.1 + rRes.1.1
  ((active, lRes.1.2, rRes.1.2),
    { s with
      leftHandHistory := lRes.2.1
      rightHandHistory := rRes.2.1
      gestureTimestamps := rRes.2.2
      totalGestures := s.totalGestures + active })

/-- One hand's test inside `GestureAnalyzer._detect_face_touch`: index
fingertip (landmark 8) visible and within the face-touch threshold of the
nose (squared-distance comparison). -/
def handTouches (p : GestureParams) (hand : Option (List Landmark))
    (nose : Landmark) : Bool :=
  match hand with
  | none => false
  | some lms =>
    decide (8 < lms.length ∧ 1/2 < (lms.getD 8 dummyLandmark).visibility ∧
      dist2 (lms.getD 8 dummyLandmark) nose < p.faceTouchThreshold ^ 2)

/-- `GestureAnalyzer._detect_face_touch` with its counter updates. -/
def detectFaceTouch (p : GestureParams) (s : GestureState)
    (left right : Option (List Landmark)) (nose : Option Landmark) (now : ℚ) :
    Bool × GestureState :=
  match nose with
  | none => (false, s)
  | some n =>
    if handTouches p left n || handTouches p right n then
      (true, { s with
        totalFaceTouches := s.totalFaceTouches + 1
        faceTouchTimestamps := pushBounded 50 s.faceTouchTimestamps now })
    else (false, s)

/-- `GestureMetrics` dataclass. -/
structure GestureMetrics where
  left_hand_visible : Bool
  right_hand_visible : Bool
  face_touch_detected : Bool
  face_touch_count : ℕ
  active_gesture_count : ℕ
  gesture_frequency : ℚ
  hand_activity_level : String
  left_hand_above_shoulders : Bool
  right_hand_above_shoulders : Bool
  timestamp : ℚ
deriving DecidableEq

/-- `GestureAnalyzer.analyze` (with `time.time()` passed as `now`):
face-touch detection, gesture counting, then frequency computed from the
updated cumulative counter. -/
noncomputable def GestureAnalyzer.analyze (p : GestureParams) (s : GestureState)
    (left right : Option (List Landmark)) (nose : Option Landmark)
    (shoulderY timestamp now : ℚ) : GestureMetrics × GestureState :=
  let leftVisible : Bool :=
    decide (left.isSome ∧ 0 < (left.getD []).length ∧
      1/2 < ((left.getD []).getD 0 dummyLandmark).visibility)
  let rightVisible : Bool :=
    decide (right.isSome ∧ 0 < (right.getD []).length ∧
      1/2 < ((right.getD []).getD 0 dummyLandmark).visibility)
  let touch := detectFaceTouch p s left right nose now
  let count := countActiveGestures p touch.2 left right shoulderY now
  let freq := calculateGestureFrequency count.2 now
  (⟨leftVisible, rightVisible, touch.1, count.2.totalFaceTouches, count.1.1,
      freq, classifyActivityLevel freq, count.1.2.1, count.1.2.2, timestamp⟩,
    count.2)

/-- Repeated calls of `_count_active_gestures` (one per frame:
left hand, right hand, shoulder height, wall-clock time), keeping the
state. -/
noncomputable def gestureCalls (p : GestureParams) (s : GestureState) :
    List (Option (List Landmark) × Option (List Landmark) × ℚ × ℚ) → GestureState
  | [] => s
  | f :: fs => gestureCalls p (countActiveGestures p s f.1 f.2.1 f.2.2.1 f.2.2.2).2 fs

/-! ## Integrity Checker (`integrity_checker.py`) -/

/-- One gaze cluster: running-average center, visit count, first/last
visit times. -/
structure Cluster where
  center : ℚ × ℚ
  visits : ℕ
  firstVisit : ℚ
  lastVisit : ℚ
deriving DecidableEq

/-- One suspicious-segment record.  The source stores the Euclidean
distance from screen center; `distanceFromCenter2` stores its square (the
stored value is the square root of this field). -/
structure SuspiciousSegment where
  timestamp : ℚ
  clusterId : ℕ
  clusterCenter : ℚ × ℚ
  frequency : ℕ
  distanceFromCenter2 : ℚ
deriving DecidableEq

/-- Constructor arguments of `IntegrityChecker.__init__`. -/
structure IntegrityParams where
  gazeClusterThreshold : ℚ
  cheatFlagThreshold : ℕ
  minClusterFrequency : ℕ
deriving DecidableEq

/-- The `IntegrityChecker` defaults. -/
def defaultIntegrityParams : IntegrityParams := ⟨1/20, 5, 3⟩

/-- Mutable state of `IntegrityChecker`.  The cluster-frequency dict is an
association list id ↦ count in insertion order; gaze-history entries are
(position, timestamp, speech_onset). -/
structure IntegrityState where
  gazeHistory : List ((ℚ × ℚ) × ℚ × Bool)
  speechOnsetGazes : List ((ℚ × ℚ) × ℚ)
  gazeClusters : List Cluster
  clusterFrequencies : List (ℕ × ℕ)
  cheatFlagCount : ℕ
  suspiciousSegments : List SuspiciousSegment
  totalSpeechOnsets : ℕ
  sessionStartTime : ℚ
  frameCount : ℕ
deriving DecidableEq

/-- A fresh `IntegrityChecker` started at time `t0`. -/
def initIntegrityState (t0 : ℚ) : IntegrityState :=
  ⟨[], [], [], [], 0, [], 0, t0, 0⟩

/-- `IntegrityChecker._calculate_gaze_position`: average of both eyes'
centroids from the canonical face-mesh indices, (0.5, 0.5) when the face
is absent or incomplete. -/
def calculateGazePosition (face : Option (List Landmark)) : ℚ × ℚ :=
  match face with
  | none => (1/2, 1/2)
  | some lms =>
    if lms.length < 468 then (1/2, 1/2)
    else
      let leftEyeX := ((lms.getD 133 dummyLandmark).x + (lms.getD 33 dummyLandmark).x) / 2
      let leftEyeY := ((lms.getD 159 dummyLandmark).y + (lms.getD 145 dummyLandmark).y) / 2
      let rightEyeX := ((lms.getD 362 dummyLandmark).x + (lms.getD 263 dummyLandmark).x) / 2
      let rightEyeY := ((lms.getD 386 dummyLandmark).y + (lms.getD 374 dummyLandmark).y) / 2
      ((leftEyeX + rightEyeX) / 2, (leftEyeY + rightEyeY) / 2)

/-- The running-average center update of `_find_or_create_cluster` when a
gaze joins an existing cluster. -/
def updateCluster (c : Cluster) (gx gy now : ℚ) : Cluster :=
  let visits := c.visits
  ⟨((c.center.1 * visits + gx) / (visits + 1), (c.center.2 * visits + gy) / (visits + 1)),
    c.visits + 1, c.firstVisit, now⟩

/-- The search loop of `_find_or_create_cluster`: first cluster within the
threshold of the gaze (squared-distance comparison) is updated in place;
`none` when no cluster matches. -/
def findClusterAux (p : IntegrityParams) (gx gy now : ℚ) :
    List Cluster → Option (ℕ × List Cluster)
  | [] => none
  | c :: rest =>
    if (gx - c.center.1) ^ 2 + (gy - c.center.2) ^ 2 < p.gazeClusterThreshold ^ 2 then
      some (0, updateCluster c gx gy now :: rest)
    else
      match findClusterAux p gx gy now rest with
      | some (i, rest') => some (i + 1, c :: rest')
      | none => none

/-- `IntegrityChecker._find_or_create_cluster`: join the first matching
cluster or append a new singleton cluster whose id is the old list
length. -/
def findOrCreateCluster (p : IntegrityParams) (clusters : List Cluster)
    (gx gy now : ℚ) : ℕ × List Cluster :=
  match findClusterAux p gx gy now clusters with
  | some r => r
  | none => (clusters.length, clusters ++ [⟨(gx, gy), 1, now, now⟩])

/-- The dict update `cluster_frequencies[id] += 1` (inserting 0 first when
the key is absent). -/
def bumpFreq : List (ℕ × ℕ) → ℕ → List (ℕ × ℕ)
  | [], i => [(i, 1)]
  | (k, v) :: rest, i =>
    if k = i then (k, v + 1) :: rest else (k, v) :: bumpFreq rest i

/-- Dict lookup `cluster_frequencies[id]` (0 when absent). -/
def freqOf (freqs : List (ℕ × ℕ)) (i : ℕ) : ℕ :=
  ((freqs.find? (fun kv => kv.1 = i)).map (·.2)).getD 0

/-- `IntegrityChecker._detect_repeated_pattern` (with `time.time()` passed
as `now`): on a speech-onset frame, record the gaze, cluster it, bump the
cluster's frequency, and raise a cheat flag with a suspicious-segment
record once the frequency reaches the minimum and the cluster center is
farther than 0.2 from screen center (squared comparison: 0.2² = 1/25). -/
def detectRepeatedPattern (p : IntegrityParams) (s : IntegrityState)
    (gx gy : ℚ) (speechOnset : Bool) (now : ℚ) : Bool × IntegrityState :=
  if !speechOnset then (false, s)
  else
    let s := { s with
      totalSpeechOnsets := s.totalSpeechOnsets + 1
      speechOnsetGazes := s.speechOnsetGazes ++ [((gx, gy), now)] }
    let found := findOrCreateCluster p s.gazeClusters gx gy now
    let clusterId := found.1
    let freqs' := bumpFreq s.clusterFrequencies clusterId
    let s := { s with gazeClusters := found.2, clusterFrequencies := freqs' }
    let clusterFrequency := freqOf freqs' clusterId
    if p.minClusterFrequency ≤ clusterFrequency then
      let c := found.2.getD clusterId ⟨(0, 0), 0, 0, 0⟩
      let distanceFromCenter2 := (c.center.1 - 1/2) ^ 2 + (c.center.2 - 1/2) ^ 2
      if 1/25 < distanceFromCenter2 then
        (true, { s with
          cheatFlagCount := s.cheatFlagCount + 1
          suspiciousSegments := s.suspiciousSegments ++
            [⟨now, clusterId, c.center, clusterFrequency, distanceFromCenter2⟩] })
      else (false, s)
    else (false, s)

/-- The closest-cluster determination inside `IntegrityChecker.analyze`:
index of the nearest cluster within the threshold of the gaze, scanning in
order (squared-distance comparisons). -/
def closestClusterId (p : IntegrityParams) (clusters : List Cluster)
    (gx gy : ℚ) : Option ℕ :=
  (clusters.enum.foldl
    (fun best ic =>
      let d2 := (gx - ic.2.center.1) ^ 2 + (gy - ic.2.center.2) ^ 2
      match best with
      | none => if d2 < p.gazeClusterThreshold ^ 2 then some (ic.1, d2) else none
      | some (j, bd) =>
        if d2 < bd ∧ d2 < p.gazeClusterThreshold ^ 2 then some (ic.1, d2)
        else some (j, bd))
    none).map (·.1)

/-- `IntegrityMetrics` dataclass.  `processing_time_ms` (a wall-clock
measurement) is modelled as 0. -/
structure IntegrityMetrics where
  gaze_x : ℚ
  gaze_y : ℚ
  gaze_cluster_id : Option ℕ
  cheat_flag_count : ℕ
  integrity_warning : Bool
  integrity_score : ℚ
  suspicious_segments : List SuspiciousSegment
  processing_time_ms : ℚ
  timestamp : ℚ
deriving DecidableEq

/-- `IntegrityChecker.analyze` (with `time.time()` passed as `now`). -/
def IntegrityChecker.analyze (p : IntegrityParams) (s : IntegrityState)
    (face : Option (List Landmark)) (speechOnset : Bool) (now : ℚ) :
    IntegrityMetrics × IntegrityState :=
  let s := { s with frameCount := s.frameCount + 1 }
  let gaze := calculateGazePosition face
  let s := { s with
    gazeHistory := pushBounded 300 s.gazeHistory (gaze, now, speechOnset) }
  let pat := detectRepeatedPattern p s gaze.1 gaze.2 speechOnset now
  let s := pat.2
  let clusterId := closestClusterId p s.gazeClusters gaze.1 gaze.2
  let score := calculateIntegrityScore s.totalSpeechOnsets s.cheatFlagCount
    s.clusterFrequencies
  let warning := p.cheatFlagThreshold ≤ s.cheatFlagCount
  (⟨gaze.1, gaze.2, clusterId, s.cheatFlagCount, warning, score,
      s.suspiciousSegments, 0, now⟩, s)

/-! ## Theorems -/

/-- A synthetic 25-point pose frame with arms crossed and all relevant
visibilities 1: wrists near the opposite shoulders, inside the chest
radius, above the hip line. -/
def goodPose : List Landmark :=
  [⟨1/2, 3/10, 0, 1⟩,
   dummyLandmark, dummyLandmark, dummyLandmark, dummyLandmark, dummyLandmark,
   dummyLandmark, dummyLandmark, dummyLandmark, dummyLandmark, dummyLandmark,
   ⟨3/5, 1/2, 0, 1⟩, ⟨2/5, 1/2, 0, 1⟩,
   ⟨3/5, 13/20, 0, 1⟩, ⟨2/5, 13/20, 0, 1⟩,
   ⟨21/50, 11/20, 0, 1⟩, ⟨29/50, 11/20, 0, 1⟩,
   dummyLandmark, dummyLandmark, dummyLandmark, dummyLandmark, dummyLandmark,
   dummyLandmark,
   ⟨3/5, 4/5, 0, 1⟩, ⟨2/5, 4/5, 0, 1⟩]

/-- `goodPose` with both wrist visibilities dropped to 0 (same geometry). -/
def badPose : List Landmark :=
  [⟨1/2, 3/10, 0, 1⟩,
   dummyLandmark, dummyLandmark, dummyLandmark, dummyLandmark, dummyLandmark,
   dummyLandmark, dummyLandmark, dummyLandmark, dummyLandmark, dummyLandmark,
   ⟨3/5, 1/2, 0, 1⟩, ⟨2/5, 1/2, 0, 1⟩,
   ⟨3/5, 13/20, 0, 1⟩, ⟨2/5, 13/20, 0, 1⟩,
   ⟨21/50, 11/20, 0, 0⟩, ⟨29/50, 11/20, 0, 0⟩,
   dummyLandmark, dummyLandmark, dummyLandmark, dummyLandmark, dummyLandmark,
   dummyLandmark,
   ⟨3/5, 4/5, 0, 1⟩, ⟨2/5, 4/5, 0, 1⟩]

/-- C1 (amended): with pose landmarks present (≥ 25 points), `analyze`
pushes the instantaneous arms-crossed boolean into the bounded history, and
the reported `arms_crossed` is true exactly when the current frame passes
the visibility gate AND at least `arms_crossed_frames` samples exist in the
history AND at least 70 % of them are true.  (The visibility conjunct in
the report is the amendment: on a frame failing the visibility gate the
source returns False directly, whatever the history holds.) -/
theorem arms_crossed_vote (p : PostureParams) (s : PostureState)
    (lms : List Landmark) (t : ℚ) (h : ¬lms.length < 25) :
    (PostureAnalyzer.analyze p s (some lms) t).2.armsCrossedHistory =
      pushBounded p.armsCrossedFrames s.armsCrossedHistory
        (armsCrossedInstant (lms.getD 15 dummyLandmark) (lms.getD 16 dummyLandmark)
          (lms.getD 11 dummyLandmark) (lms.getD 12 dummyLandmark)
          (lms.getD 23 dummyLandmark) (lms.getD 24 dummyLandmark)) ∧
    ((PostureAnalyzer.analyze p s (some lms) t).1.arms_crossed = true ↔
      armsVisible (lms.getD 15 dummyLandmark) (lms.getD 16 dummyLandmark)
        (lms.getD 11 dummyLandmark) (lms.getD 12 dummyLandmark) ∧
      p.armsCrossedFrames ≤
        (pushBounded p.armsCrossedFrames s.armsCrossedHistory
          (armsCrossedInstant (lms.getD 15 dummyLandmark) (lms.getD 16 dummyLandmark)
            (lms.getD 11 dummyLandmark) (lms.getD 12 dummyLandmark)
            (lms.getD 23 dummyLandmark) (lms.getD 24 dummyLandmark))).length ∧
      (p.armsCrossedFrames : ℚ) * (7/10) ≤
        ((pushBounded p.armsCrossedFrames s.armsCrossedHistory
          (armsCrossedInstant (lms.getD 15 dummyLandmark) (lms.getD 16 dummyLandmark)
            (lms.getD 11 dummyLandmark) (lms.getD 12 dummyLandmark)
            (lms.getD 23 dummyLandmark) (lms.getD 24 dummyLandmark))).count true : ℚ)) := by
  constructor
  · rw [analyze_state_eq]
    simp only [postureStateStep, h, if_false]
    exact detectArmsCrossed_snd p _ _ _ _ _ _ _ _ s.armsCrossedHistory
  · rw [analyze_arms_eq p s lms t h]
    exact detectArmsCrossed_fst p _ _ _ _ _ _ _ _ s.armsCrossedHistory

/-- C1 witness: the amended statement at a concrete input (default
parameters, fresh state, the crossed synthetic frame). -/
theorem arms_crossed_vote_witness :
    (PostureAnalyzer.analyze defaultPostureParams initPostureState
        (some goodPose) 0).2.armsCrossedHistory =
      pushBounded defaultPostureParams.armsCrossedFrames
        initPostureState.armsCrossedHistory
        (armsCrossedInstant (goodPose.getD 15 dummyLandmark)
          (goodPose.getD 16 dummyLandmark) (goodPose.getD 11 dummyLandmark)
          (goodPose.getD 12 dummyLandmark) (goodPose.getD 23 dummyLandmark)
          (goodPose.getD 24 dummyLandmark)) ∧
    ((PostureAnalyzer.analyze defaultPostureParams initPostureState
        (some goodPose) 0).1.arms_crossed = true ↔
      armsVisible (goodPose.getD 15 dummyLandmark) (goodPose.getD 16 dummyLandmark)
        (goodPose.getD 11 dummyLandmark) (goodPose.getD 12 dummyLandmark) ∧
      defaultPostureParams.armsCrossedFrames ≤
        (pushBounded defaultPostureParams.armsCrossedFrames
          initPostureState.armsCrossedHistory
          (armsCrossedInstant (goodPose.getD 15 dummyLandmark)
            (goodPose.getD 16 dummyLandmark) (goodPose.getD 11 dummyLandmark)
            (goodPose.getD 12 dummyLandmark) (goodPose.getD 23 dummyLandmark)
            (goodPose.getD 24 dummyLandmark))).length ∧
      (defaultPostureParams.armsCrossedFrames : ℚ) * (7/10) ≤
        ((pushBounded defaultPostureParams.armsCrossedFrames
          initPostureState.armsCrossedHistory
          (armsCrossedInstant (goodPose.getD 15 dummyLandmark)
            (goodPose.getD 16 dummyLandmark) (goodPose.getD 11 dummyLandmark)
            (goodPose.getD 12 dummyLandmark) (goodPose.getD 23 dummyLandmark)
            (goodPose.getD 24 dummyLandmark))).count true : ℚ)) :=
  arms_crossed_vote defaultPostureParams initPostureState goodPose 0 (by decide)

/-- C1 counterexample: after ten crossed frames the history is all-true;
an eleventh frame whose wrists have visibility 0 pushes one False, so the
post-push history still has 10 samples of which 9 (≥ 70 %) are true — yet
the reported `arms_crossed` is false, refuting the claim's "true exactly
when at least that many samples exist and ≥ 70 % of them are true". -/
theorem posture_step_first :
    postureStateStep defaultPostureParams initPostureState (some goodPose) =
    ⟨[1/2], some 1, [true]⟩ := by
  norm_num [postureStateStep, detectSlouch, detectArmsCrossed, armsCrossedInstant,
    pushBounded, dist2, goodPose, defaultPostureParams, initPostureState, dummyLandmark,
    List.getD, abs_of_nonneg]

theorem posture_step_steady (hist : List ℚ) (ahist : List Bool) :
    postureStateStep defaultPostureParams ⟨hist, some 1, ahist⟩ (some goodPose) =
      ⟨pushBounded 30 hist (1/2), some 1, pushBounded 10 ahist true⟩ := by
  simp only [postureStateStep, goodPose, defaultPostureParams, List.getD, List.length_cons]
  rw [detectArmsCrossed_snd]
  norm_num [detectSlouch, armsCrossedInstant, dist2, dummyLandmark, List.getD,
    abs_of_nonneg, pushBounded]

theorem posture_run_ten :
    List.foldl (fun s f => postureStateStep defaultPostureParams s f.1)
    initPostureState (List.replicate 10 (some goodPose, (0:ℚ))) =
    ⟨[1/2,1/2,1/2,1/2,1/2,1/2,1/2,1/2,1/2,1/2], some 1,
     [true,true,true,true,true,true,true,true,true,true]⟩ := by
  simp only [List.replicate, List.foldl]
  rw [posture_step_first]
  simp only [posture_step_steady]
  norm_num [pushBounded]

theorem arms_crossed_vote_cex :
    (PostureAnalyzer.analyze defaultPostureParams
        (postureStates defaultPostureParams initPostureState
          (List.replicate 10 (some goodPose, 0))) (some badPose) 0).1.arms_crossed
        = false ∧
    10 ≤ (PostureAnalyzer.analyze defaultPostureParams
        (postureStates defaultPostureParams initPostureState
          (List.replicate 10 (some goodPose, 0))) (some badPose) 0).2.armsCrossedHistory.length ∧
    (10 : ℚ) * (7/10) ≤
      ((PostureAnalyzer.analyze defaultPostureParams
        (postureStates defaultPostureParams initPostureState
          (List.replicate 10 (some goodPose, 0))) (some badPose) 0).2.armsCrossedHistory.count true : ℚ) := by
  have hlen : ¬badPose.length < 25 := by decide
  have hrun : postureStates defaultPostureParams initPostureState
      (List.replicate 10 (some goodPose, (0:ℚ))) =
      ⟨[1/2,1/2,1/2,1/2,1/2,1/2,1/2,1/2,1/2,1/2], some 1,
       [true,true,true,true,true,true,true,true,true,true]⟩ := by
    rw [postureStates_eq]
    exact posture_run_ten
  refine ⟨?_, ?_, ?_⟩
  · rw [analyze_arms_eq _ _ _ _ hlen, hrun]
    norm_num [detectArmsCrossed, badPose, List.getD, dummyLandmark, pushBounded]
  · rw [analyze_state_eq, hrun]
    simp only [postureStateStep, hlen, if_false]
    rw [detectArmsCrossed_snd]
    norm_num [armsCrossedInstant, badPose, List.getD, dummyLandmark, pushBounded,
      defaultPostureParams]
  · rw [analyze_state_eq, hrun]
    simp only [postureStateStep, hlen, if_false]
    rw [detectArmsCrossed_snd]
    norm_num [armsCrossedInstant, badPose, List.getD, dummyLandmark, pushBounded, dist2,
      defaultPostureParams]

/-- C7: when the pose is absent or has fewer than 25 points,
`PostureAnalyzer.analyze` returns the neutral/default metrics record and
leaves the analyzer state untouched. -/
theorem posture_default_on_missing (p : PostureParams) (s : PostureState)
    (pose : Option (List Landmark)) (t : ℚ)
    (h : pose = none ∨ ∃ lms, pose = some lms ∧ lms.length < 25) :
    PostureAnalyzer.analyze p s pose t = (defaultPostureMetrics t, s) := by
  rcases h with rfl | ⟨lms, rfl, hlen⟩
  · rfl
  · simp [PostureAnalyzer.analyze, hlen]

/-- C7 witness: a concrete call with no pose. -/
theorem posture_default_on_missing_witness :
    PostureAnalyzer.analyze defaultPostureParams initPostureState none 3 =
      (defaultPostureMetrics 3, initPostureState) :=
  posture_default_on_missing defaultPostureParams initPostureState none 3
    (Or.inl rfl)

/-- C4: once a `OneEuroFilter` is initialized, a call whose timestamp gives
elapsed time ≤ 0 returns the previous filtered value and leaves the whole
filter state unchanged. -/
theorem oneEuro_stale_timestamp_noop (p : OneEuroParams) (s : OneEuroState)
    (x t xp tp : ℝ) (hx : s.xPrev = some xp) (ht : s.tPrev = some tp)
    (helapsed : t - tp ≤ 0) :
    oneEuroCall p s x t = (xp, s) := by
  obtain ⟨x?, dx?, t?⟩ := s
  obtain rfl : x? = some xp := hx
  obtain rfl : t? = some tp := ht
  simp [oneEuroCall, helapsed]

/-- C4 witness: a concrete initialized filter called with a duplicate
timestamp. -/
theorem oneEuro_stale_timestamp_noop_witness :
    oneEuroCall ⟨30, 1, 0, 1⟩ ⟨some 1, some 0, some 2⟩ 5 2 =
      (1, ⟨some 1, some 0, some 2⟩) :=
  oneEuro_stale_timestamp_noop ⟨30, 1, 0, 1⟩ ⟨some 1, some 0, some 2⟩ 5 2 1 2
    rfl rfl (by norm_num)

/-- C3: the integrity score is always in [0,1], and with the speech-onset
count and cluster frequencies held fixed it is monotonically non-increasing
in the cumulative cheat-flag count. -/
theorem integrityScore_range_and_monotone :
    (∀ (t f : ℕ) (fr : List (ℕ × ℕ)),
      0 ≤ calculateIntegrityScore t f fr ∧ calculateIntegrityScore t f fr ≤ 1) ∧
    (∀ (t f f' : ℕ) (fr : List (ℕ × ℕ)), f ≤ f' →
      calculateIntegrityScore t f' fr ≤ calculateIntegrityScore t f fr) := by
  constructor
  · intro t f fr
    unfold calculateIntegrityScore
    by_cases ht : t = 0
    · simp [ht]
    · simp only [ht, if_false]
      constructor
      · exact le_max_left _ _
      · exact max_le (by norm_num) (min_le_left _ _)
  · intro t f f' fr hf
    unfold calculateIntegrityScore
    by_cases ht : t = 0
    · simp [ht]
    · simp only [ht, if_false]
      have hpen : min (9/10 : ℚ) ((f : ℚ) * (3/20)) ≤
          min (9/10 : ℚ) ((f' : ℚ) * (3/20)) := by
        apply min_le_min le_rfl
        have : (f : ℚ) ≤ (f' : ℚ) := by exact_mod_cast hf
        nlinarith
      have hbase : (1 : ℚ) - min (9/10) ((f' : ℚ) * (3/20)) ≤
          1 - min (9/10) ((f : ℚ) * (3/20)) := by linarith
      apply max_le_max le_rfl
      apply min_le_min le_rfl
      by_cases hfr : fr = []
      · simpa [hfr] using hbase
      · simp only [hfr, if_false]
        by_cases hc : (1/2 : ℚ) <
            ((fr.map (·.2)).foldl max 0 : ℚ) / (t : ℚ)
        · simp only [hc, if_true]
          linarith
        · simp only [hc, if_false]
          exact hbase

/-- Pushing onto a saturated-or-growing replicate history keeps it a
replicate (deque truncation from the front drops an equal element). -/
theorem pushBounded_replicate (m k : ℕ) (c : α) (hm : 0 < m) :
    pushBounded m (List.replicate (min k m) c) c =
      List.replicate (min (k + 1) m) c := by
  unfold pushBounded
  rcases le_or_lt (k + 1) m with h | h
  · have hk : min k m = k := by omega
    have hk1 : min (k + 1) m = k + 1 := by omega
    rw [hk, hk1, ← List.replicate_succ']
    simp [h]
  · have hk : min k m = m := by omega
    have hk1 : min (k + 1) m = m := by omega
    rw [hk, hk1, ← List.replicate_succ']
    simp only [List.length_replicate]
    rw [if_pos (by omega)]
    have hone : m + 1 - m = 1 := by omega
    rw [hone, List.replicate_succ, List.drop_one, List.tail_cons]

set_option maxRecDepth 4000 in
/-- Closed form of the blink calibration phase: `j ≤ 60` identical frames
(EAR `e`, face size `f`, time 0) from a fresh analyzer leave blink count 0
and accumulate the calibration sums; the baseline `e` appears exactly at
frame 60. -/
theorem blink_calib_closed (e f : ℚ) (j : ℕ) (hj : j ≤ 60) :
    runBlink defaultStressParams (initStressState 0) (List.replicate j (e, f, 0)) =
      (false, ⟨0, 0, true, [], if j = 60 then some e else none, j, (j : ℚ) * e,
        List.replicate (min j 30) f, none, 0, [], none, 0, 0, 0⟩) := by
  induction j with
  | zero => simp [runBlink, initStressState]
  | succ j ih =>
    have hj' : j ≤ 60 := by omega
    have hne : ¬(j = 60) := by omega
    have ih' := ih hj'
    unfold runBlink at ih' ⊢
    rw [List.replicate_succ', List.foldl_append, ih', List.foldl_cons, List.foldl_nil]
    show blinkStep _ _ _ _ _ = _
    unfold blinkStep pushFaceSize detectBlinkAdaptive
    dsimp only
    rw [pushBounded_replicate 30 j f (by norm_num)]
    rw [if_pos (by exact ⟨by rw [if_neg hne], by omega⟩)]
    simp only [Prod.mk.injEq, StressState.mk.injEq, true_and, and_true]
    refine ⟨?_, ?_⟩
    · rcases Nat.eq_or_lt_of_le (show j + 1 ≤ 60 by omega) with h60 | h60
      · rw [if_pos (by omega : 60 ≤ j + 1), if_pos h60]
        have hj59 : j = 59 := by omega
        subst hj59
        simp only [Option.some.injEq]
        push_cast
        ring
      · rw [if_neg (by omega : ¬60 ≤ j + 1), if_neg (by omega : ¬(j + 1 = 60))]
    · push_cast
      ring

set_option maxRecDepth 8000 in
/-- C5: the blink detector is a two-state machine: during the first 60
calibration frames no blink is reported and the count is unchanged; past
calibration, an open-state frame with EAR below the effective threshold
reports exactly one blink, increments the count and closes the state; a
closed-state frame never reports a blink nor changes the count; and the
end-to-end scenario of 60 open-eye frames (EAR 0.4, normal face size)
followed by one fully-closed frame (EAR 0) reports `blink_detected = true`
on that frame with `blink_count = 1`. -/
theorem blink_state_machine :
    (∀ (p : StressParams) (s : StressState) (e f n : ℚ),
      s.baselineEar = none → s.earCalibrationFrames < 60 →
      (detectBlinkAdaptive p s e f n).1 = false ∧
      (detectBlinkAdaptive p s e f n).2.blinkCount = s.blinkCount) ∧
    (∀ (p : StressParams) (s : StressState) (e f n : ℚ),
      ¬(s.baselineEar = none ∧ s.earCalibrationFrames < 60) →
      s.eyeOpen = true → e < blinkFinalThreshold p s f →
      (detectBlinkAdaptive p s e f n).1 = true ∧
      (detectBlinkAdaptive p s e f n).2.blinkCount = s.blinkCount + 1 ∧
      (detectBlinkAdaptive p s e f n).2.eyeOpen = false) ∧
    (∀ (p : StressParams) (s : StressState) (e f n : ℚ),
      s.eyeOpen = false →
      (detectBlinkAdaptive p s e f n).1 = false ∧
      (detectBlinkAdaptive p s e f n).2.blinkCount = s.blinkCount) ∧
    ((runBlink defaultStressParams (initStressState 0)
      (List.replicate 60 (2/5, 27/100, 0) ++ [(0, 27/100, 0)])).1 = true ∧
    (runBlink defaultStressParams (initStressState 0)
      (List.replicate 60 (2/5, 27/100, 0) ++ [(0, 27/100, 0)])).2.blinkCount = 1) := by
  refine ⟨?_, ?_, ?_, ?_⟩
  · intro p s e f n hb hf
    simp [detectBlinkAdaptive, hb, hf]
  · intro p s e f n hcal hopen he
    simp [detectBlinkAdaptive, hcal, he, hopen]
  · intro p s e f n hclosed
    unfold detectBlinkAdaptive
    by_cases hcal : s.baselineEar = none ∧ s.earCalibrationFrames < 60
    · simp [hcal]
    · by_cases he : e < blinkFinalThreshold p s f
      · simp [hcal, he, hclosed]
      · simp [hcal, he]
  · have hcal := blink_calib_closed (2/5) (27/100) 60 le_rfl
    have hpush := pushBounded_replicate 30 60 (27/100 : ℚ) (by norm_num)
    have key : blinkStep defaultStressParams
        ⟨0, 0, true, [], if 60 = 60 then some (2/5 : ℚ) else none, 60, (60 : ℚ) * (2/5),
          List.replicate (min 60 30) (27/100 : ℚ), none, 0, [], none, 0, 0, 0⟩
        0 (27/100) 0 =
        (true, ⟨1, 0, false, [0], some (2/5), 60, (60 : ℚ) * (2/5),
          List.replicate 30 (27/100 : ℚ), none, 0, [], none, 0, 0, 0⟩) := by
      unfold blinkStep pushFaceSize detectBlinkAdaptive
      dsimp only
      rw [hpush]
      norm_num [blinkFinalThreshold, getAdaptiveEarThreshold, defaultStressParams,
        List.sum_replicate, nsmul_eq_mul, pushBounded]
    have hrun : runBlink defaultStressParams (initStressState 0)
        (List.replicate 60 (2/5, 27/100, 0) ++ [(0, 27/100, 0)]) =
        (true, ⟨1, 0, false, [0], some (2/5), 60, (60 : ℚ) * (2/5),
          List.replicate 30 (27/100 : ℚ), none, 0, [], none, 0, 0, 0⟩) := by
      unfold runBlink at hcal ⊢
      rw [List.foldl_append, hcal, List.foldl_cons, List.foldl_nil]
      dsimp only
      exact key
    rw [hrun]
    exact ⟨rfl, rfl⟩

/-- C8 (amended): lip pursing is reported exactly when the running
compressed duration has reached (≥, not strictly exceeded) the duration
threshold; while `is_speaking` is true it is never reported and the timer
is reset; and a non-compressed frame past calibration resets the timer and
reports false.  (The amendment replaces the claim's strict "exceeding
2.0 s" by "at least 2.0 s": the source fires at
`duration >= threshold`.) -/
theorem lip_pursing_threshold :
    (∀ (p : StressParams) (s : StressState) (d n : ℚ),
      (detectLipPursing p s d true n).1 = (false, 0) ∧
      (detectLipPursing p s d true n).2.lipPurseStartTime = none ∧
      (detectLipPursing p s d true n).2.lipPurseDuration = 0) ∧
    (∀ (p : StressParams) (s : StressState) (d : ℚ) (sp : Bool) (n : ℚ),
      0 < p.lipPurseDurationThreshold →
      ((detectLipPursing p s d sp n).1.1 = true ↔
        p.lipPurseDurationThreshold ≤ (detectLipPursing p s d sp n).1.2)) ∧
    (∀ (p : StressParams) (s : StressState) (d n : ℚ),
      0 < p.lipPurseDurationThreshold →
      ¬(s.baselineLipDistance = none ∧ s.lipCalibrationFrames < 60) →
      ¬(d < lipCompressionThreshold p s) →
      (detectLipPursing p s d false n).1 = (false, 0)) := by
  refine ⟨?_, ?_, ?_⟩
  · intro p s d n
    simp [detectLipPursing]
  · intro p s d sp n hthr
    have hnle : ¬(p.lipPurseDurationThreshold ≤ 0) := by linarith
    unfold detectLipPursing
    rcases sp with _ | _
    · by_cases hcal : (s.baselineLipDistance = none ∧ s.lipCalibrationFrames < 60)
      · simp [hcal, hnle]
      · have hth : lipCompressionThreshold p
            { s with lipDistanceHistory := pushBounded 90 s.lipDistanceHistory d } =
            lipCompressionThreshold p s := rfl
        by_cases hd : d < lipCompressionThreshold p s
        · simp only [Bool.false_eq_true, if_false, hcal, hth, hd, if_true]
          rcases hst : s.lipPurseStartTime with _ | st
          · simp [hst, decide_eq_true_iff]
          · simp [hst, decide_eq_true_iff]
        · simp only [Bool.false_eq_true, if_false, hcal, hth, hd, if_true]
          simp [hnle]
    · simp [hnle]
  · intro p s d n hthr hcal hd
    have hnle : ¬(p.lipPurseDurationThreshold ≤ 0) := by linarith
    have hth : lipCompressionThreshold p
        { s with lipDistanceHistory := pushBounded 90 s.lipDistanceHistory d } =
        lipCompressionThreshold p s := rfl
    unfold detectLipPursing
    simp only [Bool.false_eq_true, if_false, hcal, hth, hd, if_true]
    simp [hnle]

set_option maxRecDepth 4000 in
/-- Closed form of the lip calibration phase: `j ≤ 60` identical
non-speaking frames (opening `d`, time 0) from a fresh analyzer accumulate
the calibration sums; the baseline `d` appears exactly at frame 60. -/
theorem lip_calib_closed (d : ℚ) (j : ℕ) (hj : j ≤ 60) :
    runLip defaultStressParams (initStressState 0) (List.replicate j (d, false, 0)) =
      ((false, 0), ⟨0, 0, true, [], none, 0, 0, [], none, 0, List.replicate j d,
        if j = 60 then some d else none, j, (j : ℚ) * d, 0⟩) := by
  induction j with
  | zero => simp [runLip, initStressState]
  | succ j ih =>
    have hj' : j ≤ 60 := by omega
    have hne : ¬(j = 60) := by omega
    have ih' := ih hj'
    unfold runLip at ih' ⊢
    rw [List.replicate_succ', List.foldl_append, ih', List.foldl_cons, List.foldl_nil]
    show detectLipPursing _ _ _ _ _ = _
    unfold detectLipPursing
    dsimp only
    have hpush : pushBounded 90 (List.replicate j d) d = List.replicate (j + 1) d := by
      unfold pushBounded
      rw [← List.replicate_succ']
      simp only [List.length_replicate]
      rw [if_neg (by omega)]
    rw [hpush]
    rw [if_neg (by simp : ¬(false = true))]
    rw [if_pos (by exact ⟨by rw [if_neg hne], by omega⟩)]
    simp only [Prod.mk.injEq, StressState.mk.injEq, true_and, and_true]
    refine ⟨?_, ?_⟩
    · rcases Nat.eq_or_lt_of_le (show j + 1 ≤ 60 by omega) with h60 | h60
      · rw [if_pos (by omega : 60 ≤ j + 1), if_pos h60]
        have hj59 : j = 59 := by omega
        subst hj59
        simp only [Option.some.injEq]
        push_cast
        ring
      · rw [if_neg (by omega : ¬60 ≤ j + 1), if_neg (by omega : ¬(j + 1 = 60))]
    · push_cast
      ring

/-- C8 counterexample: after 60 calibration frames with lip opening 0.1
(baseline 0.1, compression threshold 0.07), a compressed frame (0.05) at
t = 100 starts the timer and a compressed frame at t = 102 gives a running
duration of exactly 2.0 s — not strictly exceeding the 2.0 s threshold —
yet `lip_pursing` is reported true on that frame. -/
theorem lip_pursing_threshold_cex :
    (runLip defaultStressParams (initStressState 0)
      (List.replicate 60 (1/10, false, 0) ++
        [(1/20, false, 100), (1/20, false, 102)])).1.1 = true ∧
    (runLip defaultStressParams (initStressState 0)
      (List.replicate 60 (1/10, false, 0) ++
        [(1/20, false, 100), (1/20, false, 102)])).1.2 =
      defaultStressParams.lipPurseDurationThreshold := by
  have hcal := lip_calib_closed (1/10) 60 le_rfl
  have key1 : detectLipPursing defaultStressParams
      ⟨0, 0, true, [], none, 0, 0, [], none, 0, List.replicate 60 (1/10 : ℚ),
        if 60 = 60 then some (1/10 : ℚ) else none, 60, ((60 : ℕ) : ℚ) * (1/10), 0⟩
      (1/20) false 100 =
      ((false, 0), ⟨0, 0, true, [], none, 0, 0, [], some 100, 0,
        List.replicate 60 (1/10 : ℚ) ++ [1/20],
        some (1/10 : ℚ), 60, ((60 : ℕ) : ℚ) * (1/10), 0⟩) := by
    unfold detectLipPursing lipCompressionThreshold
    dsimp only
    norm_num [pushBounded, defaultStressParams]
  have key2 : detectLipPursing defaultStressParams
      ⟨0, 0, true, [], none, 0, 0, [], some 100, 0,
        List.replicate 60 (1/10 : ℚ) ++ [1/20],
        some (1/10 : ℚ), 60, ((60 : ℕ) : ℚ) * (1/10), 0⟩
      (1/20) false 102 =
      ((true, 2), ⟨0, 0, true, [], none, 0, 0, [], some 100, 2,
        (List.replicate 60 (1/10 : ℚ) ++ [1/20]) ++ [1/20],
        some (1/10 : ℚ), 60, ((60 : ℕ) : ℚ) * (1/10), 0⟩) := by
    unfold detectLipPursing lipCompressionThreshold
    dsimp only
    norm_num [pushBounded, defaultStressParams]
  have hrun : runLip defaultStressParams (initStressState 0)
      (List.replicate 60 (1/10, false, 0) ++ [(1/20, false, 100), (1/20, false, 102)]) =
      ((true, 2), ⟨0, 0, true, [], none, 0, 0, [], some 100, 2,
        (List.replicate 60 (1/10 : ℚ) ++ [1/20]) ++ [1/20],
        some (1/10 : ℚ), 60, ((60 : ℕ) : ℚ) * (1/10), 0⟩) := by
    unfold runLip at hcal ⊢
    rw [List.foldl_append, hcal, List.foldl_cons]
    dsimp only
    rw [key1, List.foldl_cons]
    dsimp only
    rw [key2, List.foldl_nil]
  rw [hrun]
  exact ⟨rfl, by norm_num [defaultStressParams]⟩

/-- Unfolding lemma: one step of the movement sum for a horizontal move
(same y), rightward (x nondecreasing). -/
theorem totalMovement_horiz (x1 x2 y t1 t2 : ℚ) (rest : List (ℚ × ℚ × ℚ))
    (hx : x1 ≤ x2) :
    totalMovement ((x1, y, t1) :: (x2, y, t2) :: rest) =
      ((x2 - x1 : ℚ) : ℝ) + totalMovement ((x2, y, t2) :: rest) := by
  show Real.sqrt _ + _ = _
  have h0 : ((y - y : ℚ) : ℝ) = 0 := by push_cast; ring
  have hnn : (0 : ℝ) ≤ ((x2 - x1 : ℚ) : ℝ) := by
    have : (0 : ℚ) ≤ x2 - x1 := by linarith
    exact_mod_cast this
  rw [show ((x2 - x1 : ℚ) : ℝ) ^ 2 + ((y - y : ℚ) : ℝ) ^ 2 =
    ((x2 - x1 : ℚ) : ℝ) ^ 2 by rw [h0]; ring]
  rw [Real.sqrt_sq hnn]

theorem totalMovement_single (a : ℚ × ℚ × ℚ) : totalMovement [a] = 0 := rfl

/-- Helper: a frame on which the left hand qualifies (visible, elevated,
window of at least 3 samples, movement over threshold) and no right hand is
given counts exactly one gesture and advances the counter by one. -/
theorem countActiveGestures_left_qualifying (p : GestureParams) (s : GestureState)
    (w : Landmark) (rest : List Landmark) (shoulderY now : ℚ)
    (hvis : 1/2 < w.visibility)
    (helev : w.y < shoulderY - p.gestureHeightThreshold)
    (hlen : 3 ≤ (pushBounded p.historySize s.leftHandHistory (w.x, w.y, now)).length)
    (hmove : (p.gestureVelocityThreshold : ℝ) <
      totalMovement ((pushBounded p.historySize s.leftHandHistory (w.x, w.y, now)).drop
        ((pushBounded p.historySize s.leftHandHistory (w.x, w.y, now)).length - 3))) :
    countActiveGestures p s (some (w :: rest)) none shoulderY now =
      ((1, true, false),
        { s with
          leftHandHistory := pushBounded p.historySize s.leftHandHistory (w.x, w.y, now)
          gestureTimestamps := pushBounded 100 s.gestureTimestamps now
          totalGestures := s.totalGestures + 1 }) := by
  have hw : ((w :: rest).getD 0 dummyLandmark) = w := rfl
  unfold countActiveGestures handGesture
  dsimp only
  rw [if_pos (show 0 < (w :: rest).length ∧
      1/2 < ((w :: rest).getD 0 dummyLandmark).visibility from
      ⟨by simp, by rw [hw]; exact hvis⟩)]
  rw [hw, if_pos helev, if_pos hlen, if_pos hmove]

/-- Helper: a frame on which the left hand is visible and elevated but the
updated window still has fewer than 3 samples tracks the position and
counts nothing. -/
theorem countActiveGestures_left_short (p : GestureParams) (s : GestureState)
    (w : Landmark) (rest : List Landmark) (shoulderY now : ℚ)
    (hvis : 1/2 < w.visibility)
    (helev : w.y < shoulderY - p.gestureHeightThreshold)
    (hshort : ¬3 ≤ (pushBounded p.historySize s.leftHandHistory (w.x, w.y, now)).length) :
    countActiveGestures p s (some (w :: rest)) none shoulderY now =
      ((0, true, false),
        { s with
          leftHandHistory := pushBounded p.historySize s.leftHandHistory (w.x, w.y, now) }) := by
  have hw : ((w :: rest).getD 0 dummyLandmark) = w := rfl
  unfold countActiveGestures handGesture
  dsimp only
  rw [if_pos (show 0 < (w :: rest).length ∧
      1/2 < ((w :: rest).getD 0 dummyLandmark).visibility from
      ⟨by simp, by rw [hw]; exact hvis⟩)]
  rw [hw, if_pos helev, if_neg hshort]
  rfl

/-- C2 (amended): a call of `_count_active_gestures` on a frame in which a
hand's wrist is visible (> 0.5), elevated above
`shoulder_y - height_threshold`, whose updated position window holds at
least 3 samples, and whose summed displacement over the last 3 samples
exceeds the velocity threshold, increments the cumulative gesture count by
one for that hand — on every such frame, i.e. once per qualifying frame
per hand, not once per qualifying window. -/
theorem gesture_count_per_frame (p : GestureParams) (s : GestureState)
    (w : Landmark) (rest : List Landmark) (shoulderY now : ℚ)
    (hvis : 1/2 < w.visibility)
    (helev : w.y < shoulderY - p.gestureHeightThreshold)
    (hlen : 3 ≤ (pushBounded p.historySize s.leftHandHistory (w.x, w.y, now)).length)
    (hmove : (p.gestureVelocityThreshold : ℝ) <
      totalMovement ((pushBounded p.historySize s.leftHandHistory (w.x, w.y, now)).drop
        ((pushBounded p.historySize s.leftHandHistory (w.x, w.y, now)).length - 3))) :
    (countActiveGestures p s (some (w :: rest)) none shoulderY now).1.1 = 1 ∧
    (countActiveGestures p s (some (w :: rest)) none shoulderY now).2.totalGestures =
      s.totalGestures + 1 := by
  rw [countActiveGestures_left_qualifying p s w rest shoulderY now hvis helev hlen hmove]
  exact ⟨rfl, rfl⟩

/-- C2 witness: a hand with two tracked positions gets a third elevated
sample, the 3-sample window moves 0.06 > 0.02, and the counter advances by
one on that call. -/
theorem gesture_count_per_frame_witness :
    (countActiveGestures defaultGestureParams
      ⟨0, 0, 0, [(1/2, 1/10, 0), (53/100, 1/10, 0)], [], [], []⟩
      (some [⟨56/100, 1/10, 0, 1⟩]) none (1/2) 1).1.1 = 1 ∧
    (countActiveGestures defaultGestureParams
      ⟨0, 0, 0, [(1/2, 1/10, 0), (53/100, 1/10, 0)], [], [], []⟩
      (some [⟨56/100, 1/10, 0, 1⟩]) none (1/2) 1).2.totalGestures = 0 + 1 := by
  refine gesture_count_per_frame defaultGestureParams
    ⟨0, 0, 0, [(1/2, 1/10, 0), (53/100, 1/10, 0)], [], [], []⟩
    ⟨56/100, 1/10, 0, 1⟩ [] (1/2) 1 (by norm_num) (by norm_num [defaultGestureParams])
    (by norm_num [pushBounded, defaultGestureParams]) ?_
  have hlist : (pushBounded defaultGestureParams.historySize
      [((1:ℚ)/2, (1:ℚ)/10, (0:ℚ)), (53/100, 1/10, 0)]
      (((⟨56/100, 1/10, 0, 1⟩ : Landmark)).x, ((⟨56/100, 1/10, 0, 1⟩ : Landmark)).y, 1)) =
      [((1:ℚ)/2, (1:ℚ)/10, (0:ℚ)), (53/100, 1/10, 0), (56/100, 1/10, 1)] := by
    norm_num [pushBounded, defaultGestureParams]
  rw [hlist]
  norm_num
  rw [totalMovement_horiz _ _ _ _ _ _ (by norm_num),
    totalMovement_horiz _ _ _ _ _ _ (by norm_num), totalMovement_single]
  push_cast
  norm_num [defaultGestureParams]

/-- C2 counterexample: one continuous qualifying window — the wrist stays
elevated and moves 0.03 per frame for four frames — increments the
cumulative gesture count on EVERY frame whose 3-sample window exceeds the
velocity threshold (frames 3 and 4), giving a total of 2, where the claim
("exactly once per qualifying window") predicts 1. -/
theorem gesture_count_per_frame_cex :
    (gestureCalls defaultGestureParams (initGestureState 0)
      [(some [⟨1/2, 1/10, 0, 1⟩], none, 1/2, 0),
       (some [⟨53/100, 1/10, 0, 1⟩], none, 1/2, 1),
       (some [⟨56/100, 1/10, 0, 1⟩], none, 1/2, 2),
       (some [⟨59/100, 1/10, 0, 1⟩], none, 1/2, 3)]).totalGestures = 2 := by
  have s1 : countActiveGestures defaultGestureParams (initGestureState 0)
      (some [⟨1/2, 1/10, 0, 1⟩]) none (1/2) 0 =
      ((0, true, false), ⟨0, 0, 0, [(1/2, 1/10, 0)], [], [], []⟩) := by
    rw [countActiveGestures_left_short _ _ _ _ _ _ (by norm_num)
      (by norm_num [defaultGestureParams])
      (by norm_num [pushBounded, defaultGestureParams, initGestureState])]
    norm_num [pushBounded, defaultGestureParams, initGestureState]
  have s2 : countActiveGestures defaultGestureParams
      ⟨0, 0, 0, [((1:ℚ)/2, (1:ℚ)/10, (0:ℚ))], [], [], []⟩
      (some [⟨53/100, 1/10, 0, 1⟩]) none (1/2) 1 =
      ((0, true, false), ⟨0, 0, 0, [(1/2, 1/10, 0), (53/100, 1/10, 1)], [], [], []⟩) := by
    rw [countActiveGestures_left_short _ _ _ _ _ _ (by norm_num)
      (by norm_num [defaultGestureParams])
      (by norm_num [pushBounded, defaultGestureParams])]
    norm_num [pushBounded, defaultGestureParams]
  have s3 : countActiveGestures defaultGestureParams
      ⟨0, 0, 0, [((1:ℚ)/2, (1:ℚ)/10, (0:ℚ)), (53/100, 1/10, 1)], [], [], []⟩
      (some [⟨56/100, 1/10, 0, 1⟩]) none (1/2) 2 =
      ((1, true, false),
        ⟨0, 0, 1, [(1/2, 1/10, 0), (53/100, 1/10, 1), (56/100, 1/10, 2)], [], [2], []⟩) := by
    rw [countActiveGestures_left_qualifying _ _ _ _ _ _ (by norm_num)
      (by norm_num [defaultGestureParams])
      (by norm_num [pushBounded, defaultGestureParams]) ?_]
    · norm_num [pushBounded, defaultGestureParams]
    · have hlist : pushBounded defaultGestureParams.historySize
          ((⟨0, 0, 0, [((1:ℚ)/2, (1:ℚ)/10, (0:ℚ)), (53/100, 1/10, 1)], [], [], []⟩ :
            GestureState).leftHandHistory)
          ((⟨56/100, 1/10, 0, 1⟩ : Landmark).x, (⟨56/100, 1/10, 0, 1⟩ : Landmark).y, 2) =
          [((1:ℚ)/2, (1:ℚ)/10, (0:ℚ)), (53/100, 1/10, 1), (56/100, 1/10, 2)] := by
        norm_num [pushBounded, defaultGestureParams]
      rw [hlist]
      norm_num
      rw [totalMovement_horiz _ _ _ _ _ _ (by norm_num),
        totalMovement_horiz _ _ _ _ _ _ (by norm_num), totalMovement_single]
      push_cast
      norm_num [defaultGestureParams]
  have s4 : countActiveGestures defaultGestureParams
      ⟨0, 0, 1, [((1:ℚ)/2, (1:ℚ)/10, (0:ℚ)), (53/100, 1/10, 1), (56/100, 1/10, 2)],
        [], [(2:ℚ)], []⟩
      (some [⟨59/100, 1/10, 0, 1⟩]) none (1/2) 3 =
      ((1, true, false),
        ⟨0, 0, 2, [(1/2, 1/10, 0), (53/100, 1/10, 1), (56/100, 1/10, 2), (59/100, 1/10, 3)],
          [], [2, 3], []⟩) := by
    rw [countActiveGestures_left_qualifying _ _ _ _ _ _ (by norm_num)
      (by norm_num [defaultGestureParams])
      (by norm_num [pushBounded, defaultGestureParams]) ?_]
    · norm_num [pushBounded, defaultGestureParams]
    · have hlist : pushBounded defaultGestureParams.historySize
          ((⟨0, 0, 1, [((1:ℚ)/2, (1:ℚ)/10, (0:ℚ)), (53/100, 1/10, 1), (56/100, 1/10, 2)],
            [], [(2:ℚ)], []⟩ : GestureState).leftHandHistory)
          ((⟨59/100, 1/10, 0, 1⟩ : Landmark).x, (⟨59/100, 1/10, 0, 1⟩ : Landmark).y, 3) =
          [((1:ℚ)/2, (1:ℚ)/10, (0:ℚ)), (53/100, 1/10, 1), (56/100, 1/10, 2),
            (59/100, 1/10, 3)] := by
        norm_num [pushBounded, defaultGestureParams]
      rw [hlist]
      norm_num
      rw [totalMovement_horiz _ _ _ _ _ _ (by norm_num),
        totalMovement_horiz _ _ _ _ _ _ (by norm_num), totalMovement_single]
      push_cast
      norm_num [defaultGestureParams]
  show (gestureCalls defaultGestureParams _ _).totalGestures = 2
  rw [gestureCalls, s1, gestureCalls, s2, gestureCalls, s3, gestureCalls, s4,
    gestureCalls]

/-- C9 (amended): gesture frequency is 0 before 6 seconds of session data
and otherwise equals the cumulative gesture count divided by elapsed
session minutes; the activity level is "passive" below 5/min, "moderate"
from 5 up to but excluding 15/min, and "dynamic" at or above 15/min.  (The
amendment places exactly 15/min in "dynamic": the source tests
`frequency < 15` for "moderate".) -/
theorem gesture_frequency_classification :
    (∀ (s : GestureState) (now : ℚ), (now - s.sessionStartTime) / 60 < 1/10 →
      calculateGestureFrequency s now = 0) ∧
    (∀ (s : GestureState) (now : ℚ), ¬((now - s.sessionStartTime) / 60 < 1/10) →
      calculateGestureFrequency s now =
        (s.totalGestures : ℚ) / ((now - s.sessionStartTime) / 60)) ∧
    (∀ f : ℚ, f < 5 → classifyActivityLevel f = "passive") ∧
    (∀ f : ℚ, 5 ≤ f → f < 15 → classifyActivityLevel f = "moderate") ∧
    (∀ f : ℚ, 15 ≤ f → classifyActivityLevel f = "dynamic") := by
  refine ⟨?_, ?_, ?_, ?_, ?_⟩
  · intro s now h
    unfold calculateGestureFrequency
    dsimp only
    rw [if_pos h]
  · intro s now h
    unfold calculateGestureFrequency
    dsimp only
    rw [if_neg h]
  · intro f h
    simp [classifyActivityLevel, h]
  · intro f h5 h15
    simp [classifyActivityLevel, not_lt.2 h5, h15]
  · intro f h
    simp [classifyActivityLevel, not_lt.2 h, not_lt.2 (by linarith : (5:ℚ) ≤ f)]

/-- C9 witness: 3 gestures in 12 seconds give 15/min ("dynamic"); 1 gesture
in 12 seconds gives 5/min ("moderate"); frequency is 0 after only 3
seconds. -/
theorem gesture_frequency_classification_witness :
    calculateGestureFrequency ⟨0, 0, 1, [], [], [], []⟩ 3 = 0 ∧
    calculateGestureFrequency ⟨0, 0, 1, [], [], [], []⟩ 12 = (1 : ℚ) / ((12 - 0) / 60) ∧
    classifyActivityLevel 3 = "passive" ∧
    classifyActivityLevel 5 = "moderate" ∧
    classifyActivityLevel 15 = "dynamic" :=
  ⟨gesture_frequency_classification.1 ⟨0, 0, 1, [], [], [], []⟩ 3 (by norm_num),
   (gesture_frequency_classification.2.1 ⟨0, 0, 1, [], [], [], []⟩ 12 (by norm_num)).trans
     (by norm_num),
   gesture_frequency_classification.2.2.1 3 (by norm_num),
   gesture_frequency_classification.2.2.2.1 5 (by norm_num) (by norm_num),
   gesture_frequency_classification.2.2.2.2 15 (by norm_num)⟩

/-- C9 counterexample: with 3 cumulative gestures and 12 s of session the
frequency is exactly 15/min, which the source classifies "dynamic" — the
claim says "moderate" for frequencies between 5 and 15 and reserves
"dynamic" for frequencies exceeding 15. -/
theorem gesture_frequency_classification_cex :
    calculateGestureFrequency ⟨0, 0, 3, [], [], [], []⟩ 12 = 15 ∧
    classifyActivityLevel (calculateGestureFrequency ⟨0, 0, 3, [], [], [], []⟩ 12) =
      "dynamic" := by
  have h : calculateGestureFrequency ⟨0, 0, 3, [], [], [], []⟩ 12 = 15 := by
    norm_num [calculateGestureFrequency]
  refine ⟨h, ?_⟩
  rw [h]
  norm_num [classifyActivityLevel]

/-- The cluster id assigned to a speech-onset gaze by
`_detect_repeated_pattern` (existing match or new singleton). -/
def visitedClusterId (p : IntegrityParams) (s : IntegrityState) (gx gy now : ℚ) : ℕ :=
  (findOrCreateCluster p s.gazeClusters gx gy now).1

/-- The (post-update) center of the cluster visited by a speech-onset
gaze. -/
def visitedClusterCenter (p : IntegrityParams) (s : IntegrityState)
    (gx gy now : ℚ) : ℚ × ℚ :=
  ((findOrCreateCluster p s.gazeClusters gx gy now).2.getD
    (visitedClusterId p s gx gy now) ⟨(0, 0), 0, 0, 0⟩).center

/-- The (post-increment) visit frequency of the cluster visited by a
speech-onset gaze. -/
def visitedClusterFreq (p : IntegrityParams) (s : IntegrityState)
    (gx gy now : ℚ) : ℕ :=
  freqOf (bumpFreq s.clusterFrequencies (visitedClusterId p s gx gy now))
    (visitedClusterId p s gx gy now)

/-- Squared distance of a point from screen center (0.5, 0.5); the source
compares its square root against 0.2, i.e. this against 1/25. -/
def centerDist2 (c : ℚ × ℚ) : ℚ := (c.1 - 1/2) ^ 2 + (c.2 - 1/2) ^ 2

/-- C6: on a speech-onset frame whose gaze lands in a cluster whose
post-increment visit frequency has reached the minimum and whose
post-update center lies farther than 0.2 from screen center, the cheat
flag count is incremented and a suspicious-segment record (timestamp,
cluster id, center, frequency, distance-from-center) is appended; when the
visited cluster's center is within 0.2 of center, the flag count and the
segment list never change, whatever the visit count. -/
theorem repeated_pattern_flags :
    (∀ (p : IntegrityParams) (s : IntegrityState) (gx gy now : ℚ),
      p.minClusterFrequency ≤ visitedClusterFreq p s gx gy now →
      1/25 < centerDist2 (visitedClusterCenter p s gx gy now) →
      (detectRepeatedPattern p s gx gy true now).2.cheatFlagCount =
        s.cheatFlagCount + 1 ∧
      (detectRepeatedPattern p s gx gy true now).2.suspiciousSegments =
        s.suspiciousSegments ++
          [⟨now, visitedClusterId p s gx gy now, visitedClusterCenter p s gx gy now,
            visitedClusterFreq p s gx gy now,
            centerDist2 (visitedClusterCenter p s gx gy now)⟩]) ∧
    (∀ (p : IntegrityParams) (s : IntegrityState) (gx gy now : ℚ),
      centerDist2 (visitedClusterCenter p s gx gy now) ≤ 1/25 →
      (detectRepeatedPattern p s gx gy true now).2.cheatFlagCount =
        s.cheatFlagCount ∧
      (detectRepeatedPattern p s gx gy true now).2.suspiciousSegments =
        s.suspiciousSegments) := by
  constructor
  · intro p s gx gy now hfreq hdist
    unfold detectRepeatedPattern
    unfold visitedClusterFreq visitedClusterId at hfreq
    unfold centerDist2 visitedClusterCenter visitedClusterId at hdist
    dsimp only
    rw [if_pos hfreq, if_pos hdist]
    exact ⟨rfl, rfl⟩
  · intro p s gx gy now hdist
    unfold detectRepeatedPattern
    unfold centerDist2 visitedClusterCenter visitedClusterId at hdist
    dsimp only
    by_cases hfreq : p.minClusterFrequency ≤
        freqOf (bumpFreq s.clusterFrequencies
          (findOrCreateCluster p s.gazeClusters gx gy now).1)
          (findOrCreateCluster p s.gazeClusters gx gy now).1
    · rw [if_pos hfreq, if_neg (not_lt.2 hdist)]
      exact ⟨rfl, rfl⟩
    · rw [if_neg hfreq]
      exact ⟨rfl, rfl⟩

/-- C10: a call of `IntegrityChecker.analyze` with `speech_onset = false`
leaves the cheat-flag count, the cluster list (centers and visit counts),
the cluster-frequency dict, the suspicious-segment list and the
speech-onset counter all unchanged, for any gaze. -/
theorem integrity_no_onset_frame_effect (p : IntegrityParams)
    (s : IntegrityState) (face : Option (List Landmark)) (now : ℚ) :
    (IntegrityChecker.analyze p s face false now).2.cheatFlagCount =
      s.cheatFlagCount ∧
    (IntegrityChecker.analyze p s face false now).2.gazeClusters =
      s.gazeClusters ∧
    (IntegrityChecker.analyze p s face false now).2.clusterFrequencies =
      s.clusterFrequencies ∧
    (IntegrityChecker.analyze p s face false now).2.suspiciousSegments =
      s.suspiciousSegments ∧
    (IntegrityChecker.analyze p s face false now).2.totalSpeechOnsets =
      s.totalSpeechOnsets := by
  unfold IntegrityChecker.analyze detectRepeatedPattern
  simp
